import Mathlib

/-!
Verification development for the sickpls repository: a host-side driver for
SICK PLS laser range finders speaking a byte-oriented telegram protocol.

The repository ships the headers `SickPLSMessage.hh`, `SickPLS.hh`,
`SickException.hh`, `SickPLSUtility.hh` and the example program `example.cpp`.
The member-function bodies (`SickPLSMessage.cc`, `SickPLS.cc`, the buffer
monitor) are not part of the repository snapshot, so those operations are
modelled from the specification, while every constant and inline accessor
present in the headers is embedded directly from the source.

Bytes are modelled as `Nat` values below 256; 16-bit machine arithmetic is
made explicit with `% 65536`.
-/

/-- Error kinds, from SickException.hh (SickTimeoutException,
SickIOException, SickBadChecksumException, SickThreadException,
SickConfigException, SickErrorException). -/
inductive SickError : Type where
  | timeout
  | ioErr
  | badChecksum
  | threadErr
  | config
  | errorCode
  deriving DecidableEq, Repr

/-- CRC16_GEN_POL from SickPLSMessage.hh line 25. -/
def CRC16_GEN_POL : Nat := 0x8005

/-- MKSHORT from SickPLSMessage.hh line 28: builds a little-endian unsigned
short from two bytes, `(unsigned short)(a) | ((unsigned short)(b) << 8)`. -/
def MKSHORT (a b : Nat) : Nat := ((a % 65536) ||| ((b % 65536) <<< 8)) % 65536

/-- SICK_PLS_MSG_HEADER_LEN from SickPLSMessage.hh line 30. -/
def SICK_PLS_MSG_HEADER_LEN : Nat := 4

/-- SICK_PLS_MSG_PAYLOAD_MAX_LEN from SickPLSMessage.hh line 31. -/
def SICK_PLS_MSG_PAYLOAD_MAX_LEN : Nat := 812

/-- SICK_PLS_MSG_TRAILER_LEN from SickPLSMessage.hh line 32. -/
def SICK_PLS_MSG_TRAILER_LEN : Nat := 2

/-- The header length constant of the SickMessage template base, instantiated
at SICK_PLS_MSG_HEADER_LEN = 4 in SickPLSMessage.hh line 43. -/
def MESSAGE_HEADER_LENGTH : Nat := SICK_PLS_MSG_HEADER_LEN

/-- Maximal total frame size: header + max payload + trailer (818 bytes). -/
def MESSAGE_MAX_LENGTH : Nat :=
  SICK_PLS_MSG_HEADER_LEN + SICK_PLS_MSG_PAYLOAD_MAX_LEN + SICK_PLS_MSG_TRAILER_LEN

/-- Modelled from the spec: one step of the shift-register CRC-16 of
`SickPLSMessage::_computeCRC` (body in the missing SickPLSMessage.cc);
spec 4.A: 16-bit accumulator, generator polynomial CRC16_GEN_POL = 0x8005,
previous and current byte combined with MKSHORT.  State is
(accumulator, previous byte). -/
def crcStep (st : Nat × Nat) (b : Nat) : Nat × Nat :=
  let shifted := if st.1 ≥ 0x8000 then ((st.1 % 0x8000) <<< 1) ^^^ CRC16_GEN_POL
                 else st.1 <<< 1
  ((shifted ^^^ MKSHORT b st.2) % 65536, b)

/-- Modelled from the spec: `SickPLSMessage::_computeCRC` (missing
SickPLSMessage.cc); spec 4.A: the CRC-16 with generator polynomial 0x8005
applied byte-by-byte over the input, starting from a zero accumulator and a
zero previous byte. -/
def computeCRC (data : List Nat) : Nat :=
  (data.foldl crcStep (0, 0)).1

/-- The in-memory telegram frame of class SickPLSMessage: raw buffer,
payload length and checksum (fields of SickPLSMessage.hh / SickMessage). -/
structure SickPLSMessage : Type where
  message_buffer : List Nat
  payload_length : Nat
  checksum : Nat
  deriving DecidableEq, Repr

deriving instance DecidableEq for Except

/-- GetDestAddress from SickPLSMessage.hh line 65: `_message_buffer[1]`. -/
def SickPLSMessage.GetDestAddress (m : SickPLSMessage) : Nat :=
  m.message_buffer.getD 1 0

/-- GetCommandCode from SickPLSMessage.hh line 68:
`_message_buffer[MESSAGE_HEADER_LENGTH]`. -/
def SickPLSMessage.GetCommandCode (m : SickPLSMessage) : Nat :=
  m.message_buffer.getD MESSAGE_HEADER_LENGTH 0

/-- GetStatusByte from SickPLSMessage.hh line 71:
`_message_buffer[MESSAGE_HEADER_LENGTH + _payload_length - 1]`. -/
def SickPLSMessage.GetStatusByte (m : SickPLSMessage) : Nat :=
  m.message_buffer.getD (MESSAGE_HEADER_LENGTH + m.payload_length - 1) 0

/-- GetChecksum from SickPLSMessage.hh line 74: returns `_checksum`. -/
def SickPLSMessage.GetChecksum (m : SickPLSMessage) : Nat :=
  m.checksum

/-- The payload bytes of a message: the slice of the buffer after the 4-byte
header of length `payload_length`. -/
def SickPLSMessage.GetPayload (m : SickPLSMessage) : List Nat :=
  (m.message_buffer.drop SICK_PLS_MSG_HEADER_LEN).take m.payload_length

/-- Modelled from the spec: `SickPLSMessage::Clear` (missing
SickPLSMessage.cc); spec 4.B: returns the frame to an empty
not-well-formed state (zeroed fixed-size buffer, zero payload length and
checksum), which is also the state of a default-constructed message. -/
def SickPLSMessage.Clear (_ : SickPLSMessage) : SickPLSMessage :=
  { message_buffer := List.replicate MESSAGE_MAX_LENGTH 0
    payload_length := 0
    checksum := 0 }

/-- The 4-byte frame header `[STX=0x02][addr][len_lo][len_hi]` (spec 3). -/
def mkHeader (dest : Nat) (len : Nat) : List Nat :=
  [0x02, dest, len % 256, len / 256 % 256]

/-- The CRC of a frame: computed over header ++ payload (spec 3, 4.A). -/
def frameCRC (dest : Nat) (payload : List Nat) : Nat :=
  computeCRC (mkHeader dest payload.length ++ payload)

/-- The raw wire bytes of a frame:
`[0x02][dest][len_lo][len_hi][payload][crc_lo][crc_hi]` (spec 3, 4.B),
CRC stored in little-endian byte order. -/
def frameBytes (dest : Nat) (payload : List Nat) : List Nat :=
  mkHeader dest payload.length ++ payload ++
    [frameCRC dest payload % 256, frameCRC dest payload / 256 % 256]

/-- Modelled from the spec: `SickPLSMessage::BuildMessage` (missing
SickPLSMessage.cc); spec 4.B and 8: fills the buffer with
`[0x02][dest][len_lo][len_hi][payload][crc_lo][crc_hi]`, the CRC computed
over header ++ payload and stored little-endian; payload lengths 0 and
above 812 are rejected with the configuration error. -/
def BuildMessage (dest : Nat) (payload : List Nat) :
    Except SickError SickPLSMessage :=
  if payload.length = 0 ∨ SICK_PLS_MSG_PAYLOAD_MAX_LEN < payload.length then
    .error .config
  else
    .ok { message_buffer := frameBytes dest payload
          payload_length := payload.length
          checksum := frameCRC dest payload }

/-- The payload length a raw buffer announces in its little-endian length
field (bytes 2 and 3). -/
def frameLenOf (buf : List Nat) : Nat :=
  buf.getD 2 0 + 256 * buf.getD 3 0

/-- The little-endian value of the 2 trailer bytes a raw buffer stores at
positions 4+len and 5+len. -/
def frameStoredChecksum (buf : List Nat) : Nat :=
  buf.getD (4 + frameLenOf buf) 0 + 256 * buf.getD (5 + frameLenOf buf) 0

/-- Modelled from the spec: `SickPLSMessage::ParseMessage` (missing
SickPLSMessage.cc); spec 4.B: reads STX, address, length, payload and
checksum from a caller-provided buffer, verifies STX = 0x02 and the
recomputed CRC over header ++ payload against the stored trailer; on
mismatch fails with the bad-checksum error, on success stores all fields. -/
def ParseMessage (buf : List Nat) : Except SickError SickPLSMessage :=
  if buf.getD 0 0 = 0x02 ∧
      frameStoredChecksum buf = computeCRC (buf.take (4 + frameLenOf buf)) then
    .ok { message_buffer := buf.take (6 + frameLenOf buf)
          payload_length := frameLenOf buf
          checksum := frameStoredChecksum buf }
  else
    .error .badChecksum

/-! ### Buffer monitor (component D) -/

/-- Modelled from the spec: the frame-resynchronization loop of the buffer
monitor (SickPLSBufferMonitor, not part of the repository snapshot);
spec 4.D: advance to the next STX byte 0x02; if the announced length
exceeds 812 the STX is spurious, advance one byte; once `4+length+2` bytes
are present attempt to parse; on CRC failure advance one byte past the STX,
on success publish the frame and drop its bytes.  `fuel` bounds the number
of iterations; every iteration consumes at least one byte, so a fuel equal
to the queue length is enough. -/
def monitorScan : Nat → List Nat → List SickPLSMessage
  | 0, _ => []
  | fuel + 1, l =>
    if l = [] then []
    else if l.getD 0 0 ≠ 0x02 then monitorScan fuel l.tail
    else if l.length < 4 then []
    else if 812 < frameLenOf l then monitorScan fuel l.tail
    else if l.length < 4 + frameLenOf l + 2 then []
    else
      match ParseMessage (l.take (6 + frameLenOf l)) with
      | .ok msg => msg :: monitorScan fuel (l.drop (6 + frameLenOf l))
      | .error _ => monitorScan fuel l.tail

/-- The frames the buffer monitor publishes, in order, when fed a whole
byte stream. -/
def monitorRun (stream : List Nat) : List SickPLSMessage :=
  monitorScan stream.length stream

/-- A byte stream interleaving garbage segments with complete well-formed
frames: each entry contributes its garbage bytes followed by the wire
bytes of the frame for its address and payload; `gfin` is trailing
garbage. -/
def assembleStream : List (List Nat × Nat × List Nat) → List Nat → List Nat
  | [], gfin => gfin
  | (g, d, p) :: segs, gfin => g ++ (frameBytes d p ++ assembleStream segs gfin)

/-- The parsed messages of the frames of an interleaving, in order. -/
def builtMessages : List (List Nat × Nat × List Nat) → List SickPLSMessage
  | [] => []
  | (_, d, p) :: segs =>
    { message_buffer := frameBytes d p
      payload_length := p.length
      checksum := frameCRC d p } :: builtMessages segs

/-! ### Request/response engine (component E, spec 4.E.1) -/

/-- DEFAULT_SICK_PLS_HOST_ADDRESS from SickPLS.hh line 34. -/
def DEFAULT_SICK_PLS_HOST_ADDRESS : Nat := 0x80

/-- DEFAULT_SICK_PLS_SICK_ADDRESS from SickPLS.hh line 35. -/
def DEFAULT_SICK_PLS_SICK_ADDRESS : Nat := 0x00

/-- DEFAULT_SICK_PLS_SICK_MESSAGE_TIMEOUT from SickPLS.hh line 37
(microseconds). -/
def DEFAULT_SICK_PLS_SICK_MESSAGE_TIMEOUT : Nat := 20000000

/-- DEFAULT_SICK_PLS_NUM_TRIES from SickPLS.hh line 42. -/
def DEFAULT_SICK_PLS_NUM_TRIES : Nat := 3

/-- Modelled from the spec: the acceptance test of
`SickPLS::_sendMessageAndGetReply` (missing SickPLS.cc); spec 4.E.1: a
frame is accepted iff its destination byte equals the host address 0x80
and, when a reply code is given, its command code equals that code. -/
def frameMatches (reply_code : Option Nat) (f : SickPLSMessage) : Bool :=
  f.GetDestAddress == DEFAULT_SICK_PLS_HOST_ADDRESS &&
    (match reply_code with
     | none => true
     | some c => f.GetCommandCode == c)

/-- Modelled from the spec: `SickPLS::_sendMessageAndGetReply` (missing
SickPLS.cc); spec 4.E.1.  `writeOk` is the outcome of writing the request;
`tries` lists, for each of the `num_tries` attempts, the frames the mailbox
offers within that attempt's timeout window.  A write failure fails
immediately with the I/O error; the first accepted frame is returned;
exhausting all attempts fails with the timeout error. -/
def sendMessageAndGetReply (writeOk : Bool) (reply_code : Option Nat)
    (tries : List (List SickPLSMessage)) : Except SickError SickPLSMessage :=
  if !writeOk then .error .ioErr
  else
    match tries.findSome? (fun frames => frames.find? (frameMatches reply_code)) with
    | some f => .ok f
    | none => .error .timeout

/-! ### Driver lifecycle (component E, spec 3 and 4.E) -/

/-- The lifecycle state of the SickPLS driver (spec 3: `lifecycle`). -/
inductive DriverState : Type where
  | uninitialized
  | initialized
  deriving DecidableEq, Repr

/-- The public methods of class SickPLS (SickPLS.hh lines 209-240),
`initialize` carrying whether its I/O and negotiation steps succeed. -/
inductive DriverMethod : Type where
  | initCmd (ok : Bool)
  | uninitCmd
  | getSickDevicePath
  | getSickScanAngle
  | getSickScanResolution
  | getSickMeasuringUnits
  | getSickOperatingMode
  | getSickScan
  | getSickStatus
  | resetSick
  deriving DecidableEq, Repr

/-- Whether a method is exempt from the initialized-state requirement
(spec 3: methods other than `Initialize` and `GetDevicePath` fail if not
Initialized). -/
def methodExempt : DriverMethod → Bool
  | .initCmd _ => true
  | .getSickDevicePath => true
  | _ => false

/-- Modelled from the spec: the lifecycle discipline of the SickPLS public
API (missing SickPLS.cc); spec 3, 4.E.2, 4.E.6 and the state machine of
section 4.E: returns the successor state and whether the call succeeds.
`Initialize` moves to Initialized exactly when it succeeds; `Uninitialize`
always leaves the driver Uninitialized and only succeeds from Initialized;
every other method fails without a state change when not Initialized. -/
def driverStep : DriverState → DriverMethod → DriverState × Bool
  | .uninitialized, .initCmd ok => (if ok then .initialized else .uninitialized, ok)
  | .initialized, .initCmd ok => (if ok then .initialized else .uninitialized, ok)
  | .uninitialized, .uninitCmd => (.uninitialized, false)
  | .initialized, .uninitCmd => (.uninitialized, true)
  | s, .getSickDevicePath => (s, true)
  | .uninitialized, _ => (.uninitialized, false)
  | .initialized, _ => (.initialized, true)

/-! ### Example tool (example.cpp) -/

/-- The outcomes of one execution of main in example.cpp: the argument
count, whether argv[1] is `--help` (relevant when argc = 2), whether
argv[2] parses to a known baud (relevant when argc = 3), and whether
Initialize, the GetSickScan loop and Uninitialize succeed. -/
structure MainInput : Type where
  argc : Nat
  helpArg : Bool
  baudArgOk : Bool
  initOk : Bool
  scanOk : Bool
  uninitOk : Bool
  deriving DecidableEq, Repr

/-- The exit code of main from example.cpp lines 8-89: usage errors and a
bad baud argument return -1; a failing Initialize returns -1; a failure in
the GetSickScan loop is caught, printed and execution continues; a failing
Uninitialize returns -1; otherwise 0. -/
def mainModel (m : MainInput) : Int :=
  if (m.argc ≠ 2 ∧ m.argc ≠ 3) ∨ (m.argc = 2 ∧ m.helpArg) then -1
  else if m.argc = 3 ∧ !m.baudArgOk then -1
  else if !m.initOk then -1
  else if !m.uninitOk then -1
  else 0

/-- The argument list is accepted by main's validation (example.cpp
lines 18-36): either exactly one argument that is not `--help`, or two
arguments whose second parses to a known baud rate. -/
def argsAccepted (m : MainInput) : Prop :=
  (m.argc = 2 ∧ ¬m.helpArg) ∨ (m.argc = 3 ∧ m.baudArgOk)

/-! ### Scan-profile decoding (spec 4.E.7) -/

/-- SICK_MAX_NUM_MEASUREMENTS from SickPLS.hh line 60. -/
def SICK_MAX_NUM_MEASUREMENTS : Nat := 721

/-- Modelled from the spec: `SickPLS::_extractSickMeasurementValues`
(missing SickPLS.cc); spec 4.E.7: each measurement is the 16-bit
little-endian word with the upper 3 flag bits masked off (mask 0x1FFF). -/
def extractSickMeasurementValues (byte_sequence : List Nat)
    (num_measurements : Nat) : List Nat :=
  (List.range num_measurements).map
    (fun i => MKSHORT (byte_sequence.getD (2 * i) 0)
        (byte_sequence.getD (2 * i + 1) 0) &&& 0x1FFF)

/-- The number of measurements a scan of the given angle (degrees) and
resolution (hundredths of a degree) produces: angle/resolution + 1
(spec 3: for a 180-degree scan at 0.5-degree resolution the count is 361). -/
def expectedNumMeasurements (scan_angle scan_resolution : Nat) : Nat :=
  scan_angle * 100 / scan_resolution + 1

/-- Modelled from the spec: the measurement-count handling of
`SickPLS::_parseSickScanProfileB0` (missing SickPLS.cc); spec 4.E.7 and 8:
the count is the low 14 bits of the first little-endian word after the
command code; counts above SICK_MAX_NUM_MEASUREMENTS (721) are invalid. -/
def parseScanProfileB0 (payload : List Nat) :
    Except SickError (Nat × List Nat) :=
  if (MKSHORT (payload.getD 1 0) (payload.getD 2 0) &&& 0x3FFF)
      ≤ SICK_MAX_NUM_MEASUREMENTS then
    .ok (MKSHORT (payload.getD 1 0) (payload.getD 2 0) &&& 0x3FFF,
         extractSickMeasurementValues (payload.drop 3)
           (MKSHORT (payload.getD 1 0) (payload.getD 2 0) &&& 0x3FFF))
  else
    .error .config

/-! ### Basic helper lemmas -/

theorem getD_append_left {l₁ l₂ : List Nat} {n : Nat} (h : n < l₁.length)
    (d : Nat) : (l₁ ++ l₂).getD n d = l₁.getD n d := by
  simp [List.getD_eq_getElem?_getD, List.getElem?_append_left h]

theorem getD_append_right {l₁ l₂ : List Nat} {n : Nat} (h : l₁.length ≤ n)
    (d : Nat) : (l₁ ++ l₂).getD n d = l₂.getD (n - l₁.length) d := by
  simp [List.getD_eq_getElem?_getD, List.getElem?_append_right h]

theorem getD_take_lt {l : List Nat} {n m : Nat} (h : m < n) (d : Nat) :
    (l.take n).getD m d = l.getD m d := by
  simp [List.getD_eq_getElem?_getD, List.getElem?_take_of_lt h]

/-- MKSHORT on byte values is the little-endian 16-bit value. -/
theorem MKSHORT_eq {a b : Nat} (ha : a < 256) (hb : b < 256) :
    MKSHORT a b = a + 256 * b := by
  unfold MKSHORT
  rw [Nat.mod_eq_of_lt (show a < 65536 by omega),
      Nat.mod_eq_of_lt (show b < 65536 by omega),
      Nat.shiftLeft_eq, Nat.lor_comm, Nat.mul_comm,
      ← Nat.mul_add_lt_is_or (by omega : a < 2 ^ 8) b]
  have h : (2 : Nat) ^ 8 = 256 := by norm_num
  rw [h]
  omega

theorem crcStep_fst_lt (st : Nat × Nat) (b : Nat) : (crcStep st b).1 < 65536 :=
  Nat.mod_lt _ (by norm_num)

theorem crcFold_fst_lt :
    ∀ (l : List Nat) (st : Nat × Nat), st.1 < 65536 →
      (l.foldl crcStep st).1 < 65536
  | [], _, h => h
  | b :: l, st, _ => crcFold_fst_lt l (crcStep st b) (crcStep_fst_lt st b)

theorem computeCRC_lt (l : List Nat) : computeCRC l < 65536 :=
  crcFold_fst_lt l (0, 0) (by norm_num)

/-! ### Frame shape lemmas -/

theorem mkHeader_length (dest len : Nat) : (mkHeader dest len).length = 4 := by
  simp [mkHeader]

theorem frameBytes_length (dest : Nat) (payload : List Nat) :
    (frameBytes dest payload).length = 6 + payload.length := by
  simp [frameBytes, mkHeader]
  omega

theorem frameBytes_cons (dest : Nat) (payload : List Nat) :
    frameBytes dest payload =
      0x02 :: dest :: (payload.length % 256) :: (payload.length / 256 % 256) ::
        (payload ++
          [frameCRC dest payload % 256, frameCRC dest payload / 256 % 256]) := by
  simp [frameBytes, mkHeader]

theorem frameLenOf_frameBytes {dest : Nat} {payload : List Nat}
    (h : payload.length ≤ 812) :
    frameLenOf (frameBytes dest payload) = payload.length := by
  rw [frameBytes_cons]
  unfold frameLenOf
  simp [List.getD_cons_succ, List.getD_cons_zero]
  omega

theorem frameLenOf_frameBytes_append {dest : Nat} {payload q : List Nat}
    (h : payload.length ≤ 812) :
    frameLenOf (frameBytes dest payload ++ q) = payload.length := by
  unfold frameLenOf
  rw [getD_append_left (by rw [frameBytes_length]; omega),
      getD_append_left (by rw [frameBytes_length]; omega)]
  exact frameLenOf_frameBytes h

theorem frameBytes_assoc (dest : Nat) (payload : List Nat) :
    frameBytes dest payload =
      (mkHeader dest payload.length ++ payload) ++
        [frameCRC dest payload % 256, frameCRC dest payload / 256 % 256] := by
  rw [frameBytes, List.append_assoc]

theorem header_payload_length (dest : Nat) (payload : List Nat) :
    (mkHeader dest payload.length ++ payload).length = 4 + payload.length := by
  simp [mkHeader]
  omega

theorem frameStoredChecksum_frameBytes {dest : Nat} {payload : List Nat}
    (h2 : payload.length ≤ 812) :
    frameStoredChecksum (frameBytes dest payload) = frameCRC dest payload := by
  have hlt : frameCRC dest payload < 65536 := computeCRC_lt _
  unfold frameStoredChecksum
  rw [frameLenOf_frameBytes h2, frameBytes_assoc,
      getD_append_right (by rw [header_payload_length]; try omega),
      getD_append_right (by rw [header_payload_length]; try omega),
      header_payload_length]
  have e1 : 4 + payload.length - (4 + payload.length) = 0 := by omega
  have e2 : 5 + payload.length - (4 + payload.length) = 1 := by omega
  rw [e1, e2]
  simp only [List.getD_cons_zero, List.getD_cons_succ]
  omega

theorem take_header_payload (dest : Nat) (payload : List Nat) :
    (frameBytes dest payload).take (4 + payload.length) =
      mkHeader dest payload.length ++ payload := by
  rw [frameBytes_assoc]
  exact List.take_left' (header_payload_length dest payload)

theorem take_frameBytes_all (dest : Nat) (payload : List Nat) :
    (frameBytes dest payload).take (6 + payload.length) =
      frameBytes dest payload := by
  rw [← frameBytes_length dest payload]
  exact List.take_length _

theorem frameBytes_getD_zero (dest : Nat) (payload : List Nat) :
    (frameBytes dest payload).getD 0 0 = 0x02 := by
  rw [frameBytes_cons]; rfl

/-- Parsing the exact wire bytes of a well-formed frame succeeds and
recovers all fields. -/
theorem parseMessage_frameBytes {dest : Nat} {payload : List Nat}
    (h2 : payload.length ≤ 812) :
    ParseMessage (frameBytes dest payload) =
      .ok { message_buffer := frameBytes dest payload
            payload_length := payload.length
            checksum := frameCRC dest payload } := by
  unfold ParseMessage
  rw [frameLenOf_frameBytes h2, frameStoredChecksum_frameBytes h2,
      take_header_payload, take_frameBytes_all, frameBytes_getD_zero]
  rw [if_pos ⟨rfl, rfl⟩]

/-- BuildMessage succeeds exactly on payload lengths 1..812, and then
returns the frame with the canonical wire bytes. -/
theorem buildMessage_eq_ok {dest : Nat} {payload : List Nat}
    (h1 : 1 ≤ payload.length) (h2 : payload.length ≤ 812) :
    BuildMessage dest payload =
      .ok { message_buffer := frameBytes dest payload
            payload_length := payload.length
            checksum := frameCRC dest payload } := by
  unfold BuildMessage
  rw [if_neg (by simp only [SICK_PLS_MSG_PAYLOAD_MAX_LEN]; push_neg; omega)]

theorem buildMessage_ok_elim {dest : Nat} {payload : List Nat}
    {m : SickPLSMessage} (h : BuildMessage dest payload = .ok m) :
    1 ≤ payload.length ∧ payload.length ≤ 812 ∧
      m = { message_buffer := frameBytes dest payload
            payload_length := payload.length
            checksum := frameCRC dest payload } := by
  unfold BuildMessage at h
  split at h
  · exact absurd h (by simp)
  · rename_i hc
    simp only [SICK_PLS_MSG_PAYLOAD_MAX_LEN] at hc
    push_neg at hc
    refine ⟨by omega, by omega, ?_⟩
    cases h
    rfl

/-! ### Monitor lemmas -/

theorem frameLenOf_take {buf : List Nat} {n : Nat} (h2 : 2 < n) (h3 : 3 < n) :
    frameLenOf (buf.take n) = frameLenOf buf := by
  unfold frameLenOf
  rw [getD_take_lt h2, getD_take_lt h3]

/-- A successfully parsed message re-parses to itself: its stored buffer
passes the STX and CRC verification. -/
theorem parseMessage_reparse {buf : List Nat} {msg : SickPLSMessage}
    (h : ParseMessage buf = .ok msg) :
    ParseMessage msg.message_buffer = .ok msg := by
  unfold ParseMessage at h
  split at h
  · rename_i hcond
    obtain ⟨hstx, hcrc⟩ := hcond
    cases h
    dsimp only
    set L := frameLenOf buf with hL
    have hflen : frameLenOf (buf.take (6 + L)) = L := by
      rw [frameLenOf_take (by omega) (by omega), ← hL]
    have hstored :
        frameStoredChecksum (buf.take (6 + L)) = frameStoredChecksum buf := by
      unfold frameStoredChecksum
      rw [hflen, getD_take_lt (by omega) 0, getD_take_lt (by omega) 0, ← hL]
    have htt : (buf.take (6 + L)).take (4 + L) = buf.take (4 + L) := by
      rw [List.take_take, Nat.min_eq_left (by omega)]
    have htt6 : (buf.take (6 + L)).take (6 + L) = buf.take (6 + L) := by
      rw [List.take_take, Nat.min_eq_left (by omega)]
    have hstx6 : (buf.take (6 + L)).getD 0 0 = 0x02 := by
      rw [getD_take_lt (by omega) 0]
      exact hstx
    unfold ParseMessage
    rw [hflen, hstored, htt, htt6, hstx6, if_pos ⟨rfl, hcrc⟩]
  · exact absurd h (by simp)

theorem monitorScan_nil (fuel : Nat) : monitorScan fuel [] = [] := by
  cases fuel <;> simp [monitorScan]

theorem monitorScan_skip_byte {b : Nat} (hb : b ≠ 0x02) (fuel : Nat)
    (rest : List Nat) :
    monitorScan (fuel + 1) (b :: rest) = monitorScan fuel rest := by
  rw [monitorScan]
  rw [if_neg (by simp), if_pos (by simpa using hb)]
  rfl

/-- The scanner passes over a garbage segment containing no STX byte,
consuming one fuel per byte. -/
theorem monitorScan_skip_garbage {g : List Nat} (hg : ∀ b ∈ g, b ≠ 0x02) :
    ∀ (fuel : Nat) (q : List Nat),
      monitorScan (g.length + fuel) (g ++ q) = monitorScan fuel q := by
  induction g with
  | nil => intro fuel q; simp
  | cons b g' ih =>
    intro fuel q
    have hb : b ≠ 0x02 := hg b (by simp)
    have he : (b :: g').length + fuel = (g'.length + fuel) + 1 := by
      simp [Nat.add_right_comm]
    rw [he, List.cons_append, monitorScan_skip_byte hb]
    exact ih (fun x hx => hg x (by simp [hx])) fuel q

/-- The scanner standing at a complete well-formed frame publishes it and
drops exactly its bytes, consuming one fuel. -/
theorem monitorScan_frame {dest : Nat} {payload : List Nat}
    (h1 : 1 ≤ payload.length) (h2 : payload.length ≤ 812)
    (fuel : Nat) (q : List Nat) :
    monitorScan (fuel + 1) (frameBytes dest payload ++ q) =
      { message_buffer := frameBytes dest payload
        payload_length := payload.length
        checksum := frameCRC dest payload } :: monitorScan fuel q := by
  have hlenF := frameBytes_length dest payload
  have hne : frameBytes dest payload ++ q ≠ [] := by
    rw [frameBytes_cons]
    simp
  have hhead : (frameBytes dest payload ++ q).getD 0 0 = 0x02 := by
    rw [getD_append_left (by omega)]
    exact frameBytes_getD_zero dest payload
  have hlen : (frameBytes dest payload ++ q).length =
      6 + payload.length + q.length := by
    simp [hlenF]
  have hflen : frameLenOf (frameBytes dest payload ++ q) = payload.length :=
    frameLenOf_frameBytes_append h2
  have htake : (frameBytes dest payload ++ q).take (6 + payload.length) =
      frameBytes dest payload := List.take_left' hlenF
  have hdrop : (frameBytes dest payload ++ q).drop (6 + payload.length) = q :=
    List.drop_left' hlenF
  rw [monitorScan]
  rw [if_neg (by simpa using hne), if_neg (by simpa using hhead),
      if_neg (by rw [hlen]; omega), if_neg (by rw [hflen]; omega),
      if_neg (by rw [hlen, hflen]; omega), hflen, htake, hdrop,
      parseMessage_frameBytes h2]

/-- Safety of the monitor: every published message parses back
successfully, i.e. passes the STX and CRC verification. -/
theorem monitorScan_safety :
    ∀ (fuel : Nat) (l : List Nat) (msg : SickPLSMessage),
      msg ∈ monitorScan fuel l → ParseMessage msg.message_buffer = .ok msg := by
  intro fuel
  induction fuel with
  | zero =>
    intro l msg h
    rw [monitorScan] at h
    simp at h
  | succ n ih =>
    intro l msg h
    rw [monitorScan] at h
    split at h
    · simp at h
    · split at h
      · exact ih _ _ h
      · split at h
        · simp at h
        · split at h
          · exact ih _ _ h
          · split at h
            · simp at h
            · split at h
              · rename_i msg' hparse
                rcases List.mem_cons.mp h with rfl | hmem
                · exact parseMessage_reparse hparse
                · exact ih _ _ hmem
              · exact ih _ _ h

/-- Liveness of the monitor on streams whose garbage contains no STX byte:
every interleaved well-formed frame is published, in order, and nothing
else is. -/
theorem monitorScan_liveness :
    ∀ (segs : List (List Nat × Nat × List Nat)) (gfin : List Nat) (fuel : Nat),
      (∀ s ∈ segs, (∀ b ∈ s.1, b ≠ 0x02) ∧
        1 ≤ s.2.2.length ∧ s.2.2.length ≤ 812) →
      (∀ b ∈ gfin, b ≠ 0x02) →
      (assembleStream segs gfin).length ≤ fuel →
      monitorScan fuel (assembleStream segs gfin) = builtMessages segs := by
  intro segs
  induction segs with
  | nil =>
    intro gfin fuel _ hfin hfuel
    rw [assembleStream] at hfuel ⊢
    rw [builtMessages]
    have e : fuel = gfin.length + (fuel - gfin.length) := by omega
    calc monitorScan fuel gfin
        = monitorScan (gfin.length + (fuel - gfin.length)) (gfin ++ []) := by
          rw [← e, List.append_nil]
      _ = monitorScan (fuel - gfin.length) [] :=
          monitorScan_skip_garbage hfin _ _
      _ = [] := monitorScan_nil _
  | cons s segs ih =>
    obtain ⟨g, d, p⟩ := s
    intro gfin fuel hsegs hfin hfuel
    have hg := (hsegs (g, d, p) (by simp)).1
    have h1 := (hsegs (g, d, p) (by simp)).2.1
    have h2 := (hsegs (g, d, p) (by simp)).2.2
    rw [assembleStream] at hfuel ⊢
    simp only [List.length_append, frameBytes_length] at hfuel
    have e : fuel = g.length + (fuel - g.length) := by omega
    rw [e, monitorScan_skip_garbage hg]
    have e2 : fuel - g.length = (fuel - g.length - 1) + 1 := by omega
    rw [e2, monitorScan_frame h1 h2]
    rw [builtMessages]
    congr 1
    exact ih gfin (fuel - g.length - 1)
      (fun x hx => hsegs x (by simp [hx])) hfin (by omega)

/-- Forward progress of the monitor: when the bytes at the cursor look like
a frame but fail the CRC verification, exactly one byte (the STX) is
consumed. -/
theorem monitorScan_progress {fuel : Nat} {l : List Nat} {e : SickError}
    (hne : l ≠ []) (hstx : l.getD 0 0 = 0x02) (h4 : ¬l.length < 4)
    (hplaus : ¬812 < frameLenOf l)
    (hcomplete : ¬l.length < 4 + frameLenOf l + 2)
    (hfail : ParseMessage (l.take (6 + frameLenOf l)) = .error e) :
    monitorScan (fuel + 1) l = monitorScan fuel l.tail := by
  rw [monitorScan]
  rw [if_neg (by simpa using hne), if_neg (by simpa using hstx),
      if_neg h4, if_neg hplaus, if_neg hcomplete, hfail]

/-! ### Claim theorems -/

/-- C1: Round-trip of the telegram frame: for every destination address
(a byte) and every payload of byte values with length between 1 and 812,
parsing the raw byte buffer produced by BuildMessage recovers the
identical destination address, payload bytes and payload length, and the
checksum reported by GetChecksum equals the little-endian value of the
last 2 bytes of the produced buffer. -/
theorem C1_build_parse_roundtrip (dest : Nat) (payload : List Nat)
    (hdest : dest < 256) (hbytes : ∀ b ∈ payload, b < 256)
    (h1 : 1 ≤ payload.length) (h2 : payload.length ≤ 812) :
    ∃ m : SickPLSMessage,
      BuildMessage dest payload = .ok m ∧
      ParseMessage m.message_buffer = .ok m ∧
      m.GetDestAddress = dest ∧
      m.GetPayload = payload ∧
      m.payload_length = payload.length ∧
      m.GetChecksum =
        m.message_buffer.getD (m.message_buffer.length - 2) 0 +
          256 * m.message_buffer.getD (m.message_buffer.length - 1) 0 := by
  refine ⟨_, buildMessage_eq_ok h1 h2, parseMessage_frameBytes h2, ?_, ?_, rfl, ?_⟩
  · show (frameBytes dest payload).getD 1 0 = dest
    rw [frameBytes_cons]
    rfl
  · show ((frameBytes dest payload).drop 4).take payload.length = payload
    rw [frameBytes, List.append_assoc,
        List.drop_left' (mkHeader_length dest payload.length),
        List.take_left' rfl]
  · show frameCRC dest payload =
      (frameBytes dest payload).getD ((frameBytes dest payload).length - 2) 0 +
        256 * (frameBytes dest payload).getD
          ((frameBytes dest payload).length - 1) 0
    have hs : frameStoredChecksum (frameBytes dest payload) =
        frameCRC dest payload := frameStoredChecksum_frameBytes h2
    unfold frameStoredChecksum at hs
    rw [frameLenOf_frameBytes h2] at hs
    rw [frameBytes_length]
    have e1 : 6 + payload.length - 2 = 4 + payload.length := by omega
    have e2 : 6 + payload.length - 1 = 5 + payload.length := by omega
    rw [e1, e2]
    exact hs.symm

/-- Witness for C1 at the concrete frame of spec section 8:
destination 0x80 and payload [0xA1, 0xB2, 0xC3]. -/
theorem C1_build_parse_roundtrip_witness :
    ∃ m : SickPLSMessage,
      BuildMessage 0x80 [0xA1, 0xB2, 0xC3] = .ok m ∧
      ParseMessage m.message_buffer = .ok m ∧
      m.GetDestAddress = 0x80 ∧
      m.GetPayload = [0xA1, 0xB2, 0xC3] ∧
      m.payload_length = ([0xA1, 0xB2, 0xC3] : List Nat).length ∧
      m.GetChecksum =
        m.message_buffer.getD (m.message_buffer.length - 2) 0 +
          256 * m.message_buffer.getD (m.message_buffer.length - 1) 0 :=
  C1_build_parse_roundtrip 0x80 [0xA1, 0xB2, 0xC3]
    (by decide) (by decide) (by decide) (by decide)

/-- C2: the checksum function computes, byte by byte, the shift-register
CRC-16 with generator polynomial CRC16_GEN_POL = 0x8005 over the
concatenation of the frame header (STX, address, length in little-endian)
and the payload, and BuildMessage stores this CRC in the frame trailer in
little-endian byte order. -/
theorem C2_crc_generator_and_trailer :
    CRC16_GEN_POL = 0x8005 ∧
    (∀ (data : List Nat) (b : Nat),
      computeCRC (data ++ [b]) = (crcStep (data.foldl crcStep (0, 0)) b).1) ∧
    (∀ (dest : Nat) (payload : List Nat) (m : SickPLSMessage),
      BuildMessage dest payload = .ok m →
      m.checksum = computeCRC (mkHeader dest payload.length ++ payload) ∧
      m.message_buffer =
        (mkHeader dest payload.length ++ payload) ++
          [m.checksum % 256, m.checksum / 256 % 256]) := by
  refine ⟨rfl, ?_, ?_⟩
  · intro data b
    unfold computeCRC
    rw [List.foldl_append]
    rfl
  · intro dest payload m h
    obtain ⟨-, -, rfl⟩ := buildMessage_ok_elim h
    exact ⟨rfl, frameBytes_assoc dest payload⟩

/-- Witness for C2 at the concrete frame of spec section 8. -/
theorem C2_crc_generator_and_trailer_witness :
    computeCRC ([0x02, 0x80] ++ [0x03]) = (crcStep ([0x02, 0x80].foldl crcStep (0, 0)) 0x03).1 ∧
    ({ message_buffer := frameBytes 0x80 [0xA1, 0xB2, 0xC3]
       payload_length := 3
       checksum := frameCRC 0x80 [0xA1, 0xB2, 0xC3] } : SickPLSMessage).checksum =
      computeCRC (mkHeader 0x80 ([0xA1, 0xB2, 0xC3] : List Nat).length ++ [0xA1, 0xB2, 0xC3]) :=
  ⟨C2_crc_generator_and_trailer.2.1 [0x02, 0x80] 0x03,
   (C2_crc_generator_and_trailer.2.2 0x80 [0xA1, 0xB2, 0xC3] _
     (buildMessage_eq_ok (by decide) (by decide))).1⟩

/-- C3 as stated is refuted: the wire bytes of `BuildMessage 1 [1]` differ
from those of the well-formed frame `BuildMessage 0 [1]` in at least one
bit (they differ as byte lists and have equal length), yet parsing this
"corrupted" buffer does not fail with the checksum error: it is itself a
well-formed frame and parses successfully. -/
theorem C3_counterexample :
    BuildMessage 0 [1] =
      .ok { message_buffer := [2, 0, 1, 0, 1, 37, 18]
            payload_length := 1
            checksum := 4645 } ∧
    BuildMessage 1 [1] =
      .ok { message_buffer := [2, 1, 1, 0, 1, 45, 22]
            payload_length := 1
            checksum := 5677 } ∧
    ([2, 0, 1, 0, 1, 37, 18] : List Nat) ≠ [2, 1, 1, 0, 1, 45, 22] ∧
    ([2, 0, 1, 0, 1, 37, 18] : List Nat).length =
      ([2, 1, 1, 0, 1, 45, 22] : List Nat).length ∧
    ParseMessage [2, 1, 1, 0, 1, 45, 22] =
      .ok { message_buffer := [2, 1, 1, 0, 1, 45, 22]
            payload_length := 1
            checksum := 5677 } := by
  exact ⟨by decide, by decide, by decide, by decide, by decide⟩

/-- C3 amended: ParseMessage fails, always with the bad-checksum error,
exactly when the STX byte differs from 0x02 or the CRC recomputed over
header and payload differs from the little-endian value of the 2 trailer
bytes; a corruption that itself forms a well-formed frame (matching CRC)
parses successfully. -/
theorem C3_parse_fails_iff_checksum_mismatch (buf : List Nat) :
    (ParseMessage buf = .error .badChecksum ↔
      ¬(buf.getD 0 0 = 0x02 ∧
        frameStoredChecksum buf = computeCRC (buf.take (4 + frameLenOf buf)))) ∧
    (∀ e, ParseMessage buf = .error e → e = .badChecksum) := by
  constructor
  · unfold ParseMessage
    split
    · rename_i hc
      exact iff_of_false (by simp) (not_not_intro hc)
    · rename_i hc
      exact iff_of_true rfl hc
  · intro e he
    unfold ParseMessage at he
    split at he
    · exact absurd he (by simp)
    · rw [Except.error.injEq] at he
      exact he.symm

/-- Witness for C3's amended theorem: a frame whose STX byte was flipped
to 0x03 fails with the bad-checksum error. -/
theorem C3_parse_fails_iff_checksum_mismatch_witness :
    ParseMessage [3, 0, 1, 0, 1, 37, 18] = .error .badChecksum :=
  (C3_parse_fails_iff_checksum_mismatch [3, 0, 1, 0, 1, 37, 18]).1.mpr
    (by decide)

/-- C4: BuildMessage accepts exactly the payload lengths 1..812: a payload
of length 0 is rejected with the configuration error, a payload of length
812 is accepted, and a payload longer than 812 is rejected with the
configuration error. -/
theorem C4_buildMessage_payload_bounds :
    (∀ (dest : Nat) (payload : List Nat), payload.length = 0 →
      BuildMessage dest payload = .error .config) ∧
    (∀ (dest : Nat) (payload : List Nat), payload.length = 812 →
      BuildMessage dest payload =
        .ok { message_buffer := frameBytes dest payload
              payload_length := payload.length
              checksum := frameCRC dest payload }) ∧
    (∀ (dest : Nat) (payload : List Nat), 812 < payload.length →
      BuildMessage dest payload = .error .config) ∧
    (∀ (dest : Nat) (payload : List Nat) (m : SickPLSMessage),
      BuildMessage dest payload = .ok m →
      1 ≤ payload.length ∧ payload.length ≤ 812) := by
  refine ⟨?_, ?_, ?_, ?_⟩
  · intro dest payload h
    unfold BuildMessage
    rw [if_pos (Or.inl h)]
  · intro dest payload h
    exact buildMessage_eq_ok (by omega) (by omega)
  · intro dest payload h
    unfold BuildMessage
    rw [if_pos (Or.inr (by simpa [SICK_PLS_MSG_PAYLOAD_MAX_LEN] using h))]
  · intro dest payload m h
    obtain ⟨a, b, -⟩ := buildMessage_ok_elim h
    exact ⟨a, b⟩

/-- Witness for C4 at the boundary lengths 0, 812 and 813. -/
theorem C4_buildMessage_payload_bounds_witness :
    BuildMessage 0 [] = .error .config ∧
    BuildMessage 0 (List.replicate 812 7) =
      .ok { message_buffer := frameBytes 0 (List.replicate 812 7)
            payload_length := (List.replicate 812 7).length
            checksum := frameCRC 0 (List.replicate 812 7) } ∧
    BuildMessage 0 (List.replicate 813 7) = .error .config :=
  ⟨C4_buildMessage_payload_bounds.1 0 [] rfl,
   C4_buildMessage_payload_bounds.2.1 0 (List.replicate 812 7)
     (List.length_replicate 812 7),
   C4_buildMessage_payload_bounds.2.2.1 0 (List.replicate 813 7)
     (by rw [List.length_replicate]; omega)⟩

/-- C5: the request/response engine returns a received frame iff a frame
with destination byte 0x80 (the host address) and, when a reply code is
specified, matching command code was offered; non-matching frames are
never returned; exhausting all attempts without a match fails with the
timeout error; a write failure fails immediately with the I/O error.  The
defaults are host address 0x80, timeout 20000000 microseconds and 3
tries. -/
theorem C5_sendMessageAndGetReply_spec :
    DEFAULT_SICK_PLS_HOST_ADDRESS = 0x80 ∧
    DEFAULT_SICK_PLS_SICK_MESSAGE_TIMEOUT = 20000000 ∧
    DEFAULT_SICK_PLS_NUM_TRIES = 3 ∧
    (∀ (reply_code : Option Nat) (tries : List (List SickPLSMessage))
        (f : SickPLSMessage),
      sendMessageAndGetReply true reply_code tries = .ok f →
      (f.GetDestAddress = 0x80 ∧
        (∀ c, reply_code = some c → f.GetCommandCode = c)) ∧
      ∃ t ∈ tries, f ∈ t) ∧
    (∀ (reply_code : Option Nat) (tries : List (List SickPLSMessage)),
      (∀ t ∈ tries, ∀ fr ∈ t, frameMatches reply_code fr = false) →
      sendMessageAndGetReply true reply_code tries = .error .timeout) ∧
    (∀ (reply_code : Option Nat) (tries : List (List SickPLSMessage)),
      (∃ t ∈ tries, ∃ fr ∈ t, frameMatches reply_code fr = true) →
      ∃ f, sendMessageAndGetReply true reply_code tries = .ok f) ∧
    (∀ (reply_code : Option Nat) (tries : List (List SickPLSMessage)),
      sendMessageAndGetReply false reply_code tries = .error .ioErr) := by
  refine ⟨rfl, rfl, rfl, ?_, ?_, ?_, ?_⟩
  · intro reply_code tries f h
    unfold sendMessageAndGetReply at h
    simp only [Bool.not_true, Bool.false_eq_true, if_false] at h
    split at h
    · rename_i f' hfind
      rw [Except.ok.injEq] at h
      subst h
      obtain ⟨t, ht, hsome⟩ := List.exists_of_findSome?_eq_some hfind
      have hmatch : frameMatches reply_code f' = true := List.find?_some hsome
      have hmem : f' ∈ t := List.mem_of_find?_eq_some hsome
      unfold frameMatches at hmatch
      rw [Bool.and_eq_true] at hmatch
      obtain ⟨hdest, hcode⟩ := hmatch
      refine ⟨⟨by simpa [DEFAULT_SICK_PLS_HOST_ADDRESS] using hdest, ?_⟩,
        t, ht, hmem⟩
      intro c hc
      subst hc
      simpa using hcode
    · exact absurd h (by simp)
  · intro reply_code tries hall
    unfold sendMessageAndGetReply
    simp only [Bool.not_true, Bool.false_eq_true, if_false]
    have : tries.findSome?
        (fun frames => frames.find? (frameMatches reply_code)) = none := by
      rw [List.findSome?_eq_none_iff]
      intro t ht
      rw [List.find?_eq_none]
      intro fr hfr hm
      exact absurd (hall t ht fr hfr) (by simp [hm])
    rw [this]
  · intro reply_code tries hex
    unfold sendMessageAndGetReply
    simp only [Bool.not_true, Bool.false_eq_true, if_false]
    rcases hfs : tries.findSome?
        (fun frames => frames.find? (frameMatches reply_code)) with _ | f
    · obtain ⟨t, ht, fr, hfr, hm⟩ := hex
      rw [List.findSome?_eq_none_iff] at hfs
      have := hfs t ht
      rw [List.find?_eq_none] at this
      exact absurd hm (by simpa using this fr hfr)
    · exact ⟨f, by rw [hfs]⟩
  · intro reply_code tries
    rfl

/-- Witness for C5: a frame addressed to 0x80 with command code 5 is
returned and analysed; an attempt list with no matching frame times out;
a failed write gives the I/O error. -/
theorem C5_sendMessageAndGetReply_spec_witness :
    (({ message_buffer := [0, 0x80, 0, 0, 5], payload_length := 1,
        checksum := 0 } : SickPLSMessage).GetDestAddress = 0x80 ∧
      (∀ c, (some 5 : Option Nat) = some c →
        ({ message_buffer := [0, 0x80, 0, 0, 5], payload_length := 1,
           checksum := 0 } : SickPLSMessage).GetCommandCode = c)) ∧
    sendMessageAndGetReply true none [[]] = .error .timeout ∧
    sendMessageAndGetReply false none [] = .error .ioErr :=
  ⟨(C5_sendMessageAndGetReply_spec.2.2.2.1 (some 5)
      [[{ message_buffer := [0, 0x80, 0, 0, 5], payload_length := 1,
          checksum := 0 }]] _ (by decide)).1,
   C5_sendMessageAndGetReply_spec.2.2.2.2.1 none [[]] (by decide),
   C5_sendMessageAndGetReply_spec.2.2.2.2.2.2 none []⟩

/-- C6 as stated is refuted on the liveness half: the stream consisting of
the single well-formed frame `BuildMessage 0 [2,0,1,0,1,37,18]` contains,
embedded in its payload, the complete well-formed frame
`[2,0,1,0,1,37,18]` (the wire bytes of `BuildMessage 0 [1]`), but the
monitor publishes only the outer frame, never the inner one. -/
theorem C6_counterexample :
    ParseMessage [2, 0, 1, 0, 1, 37, 18] =
      .ok { message_buffer := [2, 0, 1, 0, 1, 37, 18]
            payload_length := 1
            checksum := 4645 } ∧
    ([2, 0, 7, 0, 2, 0, 1, 0, 1, 37, 18, 221, 96] : List Nat) =
      [2, 0, 7, 0] ++ [2, 0, 1, 0, 1, 37, 18] ++ [221, 96] ∧
    BuildMessage 0 [2, 0, 1, 0, 1, 37, 18] =
      .ok { message_buffer := [2, 0, 7, 0, 2, 0, 1, 0, 1, 37, 18, 221, 96]
            payload_length := 7
            checksum := 24797 } ∧
    monitorRun [2, 0, 7, 0, 2, 0, 1, 0, 1, 37, 18, 221, 96] =
      [{ message_buffer := [2, 0, 7, 0, 2, 0, 1, 0, 1, 37, 18, 221, 96]
         payload_length := 7
         checksum := 24797 }] ∧
    ({ message_buffer := [2, 0, 1, 0, 1, 37, 18]
       payload_length := 1
       checksum := 4645 } : SickPLSMessage) ∉
      monitorRun [2, 0, 7, 0, 2, 0, 1, 0, 1, 37, 18, 221, 96] :=
  ⟨by decide, by decide, by decide, by decide, by decide⟩

/-- C6 amended: the buffer monitor never publishes a frame that fails the
CRC verification (safety); every well-formed frame interleaved with
garbage segments that contain no STX byte 0x02 is published, in order
(liveness); and when the bytes at the cursor carry an STX and a plausible
length but fail the CRC verification, the monitor consumes exactly one
byte, guaranteeing forward progress on garbage. -/
theorem C6_monitor_safety_and_liveness :
    (∀ (stream : List Nat) (msg : SickPLSMessage),
      msg ∈ monitorRun stream → ParseMessage msg.message_buffer = .ok msg) ∧
    (∀ (segs : List (List Nat × Nat × List Nat)) (gfin : List Nat),
      (∀ s ∈ segs, (∀ b ∈ s.1, b ≠ 0x02) ∧
        1 ≤ s.2.2.length ∧ s.2.2.length ≤ 812) →
      (∀ b ∈ gfin, b ≠ 0x02) →
      monitorRun (assembleStream segs gfin) = builtMessages segs) ∧
    (∀ (fuel : Nat) (l : List Nat) (e : SickError),
      l ≠ [] → l.getD 0 0 = 0x02 → ¬l.length < 4 → ¬812 < frameLenOf l →
      ¬l.length < 4 + frameLenOf l + 2 →
      ParseMessage (l.take (6 + frameLenOf l)) = .error e →
      monitorScan (fuel + 1) l = monitorScan fuel l.tail) := by
  refine ⟨?_, ?_, ?_⟩
  · intro stream msg h
    exact monitorScan_safety _ _ _ h
  · intro segs gfin hsegs hfin
    exact monitorScan_liveness segs gfin _ hsegs hfin (le_refl _)
  · intro fuel l e hne hstx h4 hplaus hcomplete hfail
    exact monitorScan_progress hne hstx h4 hplaus hcomplete hfail

/-- Witness for C6: a concrete garbage/frame interleaving is published in
full; a concrete corrupted frame makes the monitor advance one byte. -/
theorem C6_monitor_safety_and_liveness_witness :
    ParseMessage
        ({ message_buffer := [2, 0, 1, 0, 1, 37, 18]
           payload_length := 1
           checksum := 4645 } : SickPLSMessage).message_buffer =
      .ok { message_buffer := [2, 0, 1, 0, 1, 37, 18]
            payload_length := 1
            checksum := 4645 } ∧
    monitorRun (assembleStream [([0], 0, [1])] [5]) =
      builtMessages [([0], 0, [1])] ∧
    monitorScan (6 + 1) [2, 0, 1, 0, 1, 37, 19] =
      monitorScan 6 ([2, 0, 1, 0, 1, 37, 19] : List Nat).tail :=
  ⟨C6_monitor_safety_and_liveness.1 [2, 0, 1, 0, 1, 37, 18] _ (by decide),
   C6_monitor_safety_and_liveness.2.1 [([0], 0, [1])] [5]
     (by decide) (by decide),
   C6_monitor_safety_and_liveness.2.2 6 [2, 0, 1, 0, 1, 37, 19]
     .badChecksum (by decide) (by decide) (by decide) (by decide)
     (by decide) (by decide)⟩

theorem getD_lt_256 {l : List Nat} (h : ∀ b ∈ l, b < 256) (k : Nat) :
    l.getD k 0 < 256 := by
  by_cases hk : k < l.length
  · rw [List.getD_eq_getElem?_getD, List.getElem?_eq_getElem hk]
    exact h _ (List.getElem_mem hk)
  · rw [List.getD_eq_getElem?_getD, List.getElem?_eq_none (by omega)]
    norm_num

theorem extract_length (bytes : List Nat) (num : Nat) :
    (extractSickMeasurementValues bytes num).length = num := by
  unfold extractSickMeasurementValues
  rw [List.length_map, List.length_range]

/-- C7: the driver state moves only along
Uninitialized → Initialized → Uninitialized: from Uninitialized only a
successful Initialize changes the state (to Initialized), from Initialized
only Uninitialize (or a failing re-Initialize) leaves the state; every
public method other than Initialize and GetSickDevicePath fails when the
driver is not Initialized; and Uninitialize always leaves the driver
Uninitialized, idempotently. -/
theorem C7_driver_lifecycle :
    (∀ m : DriverMethod, (∀ ok, m ≠ .initCmd ok) →
      (driverStep .uninitialized m).1 = .uninitialized) ∧
    (∀ ok, (driverStep .uninitialized (.initCmd ok)).1 =
      if ok then .initialized else .uninitialized) ∧
    (∀ m : DriverMethod, m ≠ .uninitCmd → (∀ ok, m ≠ .initCmd ok) →
      (driverStep .initialized m).1 = .initialized) ∧
    (driverStep .initialized .uninitCmd).1 = .uninitialized ∧
    (∀ m : DriverMethod, methodExempt m = false →
      (driverStep .uninitialized m).2 = false) ∧
    (∀ s, (driverStep s .uninitCmd).1 = .uninitialized) ∧
    (∀ s, (driverStep (driverStep s .uninitCmd).1 .uninitCmd).1 =
      .uninitialized) := by
  refine ⟨?_, ?_, ?_, rfl, ?_, ?_, ?_⟩
  · intro m h
    cases m
    case initCmd ok => exact absurd rfl (h ok)
    all_goals rfl
  · intro ok
    cases ok <;> rfl
  · intro m hu h
    cases m
    case initCmd ok => exact absurd rfl (h ok)
    case uninitCmd => exact absurd rfl hu
    all_goals rfl
  · intro m h
    cases m
    case initCmd ok => simp [methodExempt] at h
    case getSickDevicePath => simp [methodExempt] at h
    all_goals rfl
  · intro s
    cases s <;> rfl
  · intro s
    cases s <;> rfl

/-- Witness for C7: GetSickScan leaves the Uninitialized state unchanged
and fails there; Uninitialize applied twice from Initialized ends (and
stays) Uninitialized. -/
theorem C7_driver_lifecycle_witness :
    (driverStep .uninitialized .getSickScan).1 = .uninitialized ∧
    (driverStep .uninitialized .getSickScan).2 = false ∧
    (driverStep .initialized .getSickStatus).1 = .initialized ∧
    (driverStep (driverStep .initialized .uninitCmd).1 .uninitCmd).1 =
      .uninitialized :=
  ⟨C7_driver_lifecycle.1 .getSickScan (by decide),
   C7_driver_lifecycle.2.2.2.2.1 .getSickScan (by decide),
   C7_driver_lifecycle.2.2.1 .getSickStatus (by decide) (by decide),
   C7_driver_lifecycle.2.2.2.2.2.2 .initialized⟩

/-- C8: scan-profile (0xB0) decoding: each decoded measurement is exactly
the low 13 bits of its 16-bit little-endian word (the upper 3 flag bits
masked off); the decoded measurement count never exceeds
SICK_MAX_NUM_MEASUREMENTS = 721; and the count for the only supported
configuration (180 degrees at 0.5-degree resolution) is 361. -/
theorem C8_scan_profile_decoding :
    SICK_MAX_NUM_MEASUREMENTS = 721 ∧
    (∀ (bytes : List Nat) (num i : Nat), i < num → (∀ b ∈ bytes, b < 256) →
      (extractSickMeasurementValues bytes num).getD i 0 =
        (bytes.getD (2 * i) 0 + 256 * bytes.getD (2 * i + 1) 0) % 8192) ∧
    (∀ (bytes : List Nat) (num : Nat),
      (extractSickMeasurementValues bytes num).length = num) ∧
    (∀ (payload : List Nat) (n : Nat) (ms : List Nat),
      parseScanProfileB0 payload = .ok (n, ms) →
      n ≤ SICK_MAX_NUM_MEASUREMENTS ∧ ms.length = n) ∧
    expectedNumMeasurements 180 50 = 361 ∧
    expectedNumMeasurements 180 50 ≤ SICK_MAX_NUM_MEASUREMENTS := by
  refine ⟨rfl, ?_, extract_length, ?_, by decide, by decide⟩
  · intro bytes num i hi hb
    unfold extractSickMeasurementValues
    rw [List.getD_eq_getElem?_getD, List.getElem?_map, List.getElem?_range hi]
    simp only [Option.map_some', Option.getD_some]
    rw [MKSHORT_eq (getD_lt_256 hb _) (getD_lt_256 hb _)]
    have h13 : (0x1FFF : Nat) = 2 ^ 13 - 1 := by norm_num
    rw [h13, Nat.and_pow_two_sub_one_eq_mod]
  · intro payload n ms h
    unfold parseScanProfileB0 at h
    split at h
    · rename_i hguard
      rw [Except.ok.injEq, Prod.mk.injEq] at h
      obtain ⟨rfl, rfl⟩ := h
      exact ⟨hguard, extract_length _ _⟩
    · exact absurd h (by simp)

/-- Witness for C8: a two-measurement profile with in-range and masked
words, and a concrete masked extraction. -/
theorem C8_scan_profile_decoding_witness :
    (extractSickMeasurementValues [255, 255] 1).getD 0 0 =
      (255 + 256 * 255) % 8192 ∧
    (2 ≤ SICK_MAX_NUM_MEASUREMENTS ∧ ([10, 20] : List Nat).length = 2) :=
  ⟨C8_scan_profile_decoding.2.1 [255, 255] 1 0 (by decide) (by decide),
   C8_scan_profile_decoding.2.2.2.1 [176, 2, 0, 10, 0, 20, 0] 2 [10, 20]
     (by decide)⟩

/-- C9 as stated is refuted: in an execution where the arguments are
valid, Initialize succeeds, the GetSickScan loop fails, and Uninitialize
succeeds, main catches the scan failure, prints a message, continues to
Uninitialize and returns 0, not -1. -/
theorem C9_counterexample :
    mainModel { argc := 2, helpArg := false, baudArgOk := true,
                initOk := true, scanOk := false, uninitOk := true } = 0 ∧
    ((0 : Int) = -1 → False) :=
  ⟨by decide, by decide⟩

/-- C9 amended: main's exit code is always 0 or -1, and it is 0 exactly
when the argument validation, Initialize and Uninitialize all succeed; a
GetSickScan failure is caught and does not affect the exit code. -/
theorem C9_mainModel_exit_codes (m : MainInput) :
    (mainModel m = 0 ∨ mainModel m = -1) ∧
    (mainModel m = 0 ↔ argsAccepted m ∧ m.initOk = true ∧ m.uninitOk = true) := by
  obtain ⟨argc, help, baud, init, scan, uninit⟩ := m
  unfold mainModel argsAccepted
  dsimp only
  by_cases h2 : argc = 2 <;> by_cases h3 : argc = 3
  all_goals cases help
  all_goals cases baud
  all_goals cases init
  all_goals cases uninit
  all_goals simp_all

/-- C10: GetStatusByte returns the byte at index
MESSAGE_HEADER_LENGTH + payload_length - 1 of the message buffer; for
every built message (payload length at least 1) this is the last payload
byte; for a cleared (or default-constructed) message with payload length
0 it does not fail and returns the byte at index 3, which lies in the
4-byte header region rather than in any payload. -/
theorem C10_getStatusByte_underflow :
    (∀ (m : SickPLSMessage),
      m.GetStatusByte =
        m.message_buffer.getD (MESSAGE_HEADER_LENGTH + m.payload_length - 1) 0) ∧
    (∀ (dest : Nat) (payload : List Nat) (m : SickPLSMessage),
      BuildMessage dest payload = .ok m →
      m.GetStatusByte = payload.getD (payload.length - 1) 0) ∧
    (∀ m0 : SickPLSMessage,
      (m0.Clear).payload_length = 0 ∧
      MESSAGE_HEADER_LENGTH + (m0.Clear).payload_length - 1 = 3 ∧
      3 < MESSAGE_HEADER_LENGTH ∧
      (m0.Clear).GetStatusByte = (m0.Clear).message_buffer.getD 3 0 ∧
      (m0.Clear).GetStatusByte = 0) := by
  refine ⟨fun m => rfl, ?_, ?_⟩
  · intro dest payload m h
    obtain ⟨h1, h2, rfl⟩ := buildMessage_ok_elim h
    show (frameBytes dest payload).getD
      (MESSAGE_HEADER_LENGTH + payload.length - 1) 0 =
        payload.getD (payload.length - 1) 0
    have e : MESSAGE_HEADER_LENGTH + payload.length - 1 = 4 + (payload.length - 1) := by
      unfold MESSAGE_HEADER_LENGTH SICK_PLS_MSG_HEADER_LEN
      omega
    rw [e, frameBytes, List.append_assoc,
        getD_append_right (by rw [mkHeader_length]; omega),
        mkHeader_length]
    have e2 : 4 + (payload.length - 1) - 4 = payload.length - 1 := by omega
    rw [e2, getD_append_left (by omega)]
  · intro m0
    refine ⟨rfl, rfl, by decide, rfl, ?_⟩
    show (List.replicate MESSAGE_MAX_LENGTH 0).getD 3 0 = 0
    rw [List.getD_eq_getElem?_getD, List.getElem?_replicate]
    simp [MESSAGE_MAX_LENGTH, SICK_PLS_MSG_HEADER_LEN,
      SICK_PLS_MSG_PAYLOAD_MAX_LEN, SICK_PLS_MSG_TRAILER_LEN]

/-- Witness for C10: the built frame for payload [1] has status byte 1
(its last payload byte). -/
theorem C10_getStatusByte_underflow_witness :
    ({ message_buffer := [2, 0, 1, 0, 1, 37, 18], payload_length := 1,
       checksum := 4645 } : SickPLSMessage).GetStatusByte =
      ([1] : List Nat).getD 0 0 :=
  C10_getStatusByte_underflow.2.1 0 [1]
    { message_buffer := [2, 0, 1, 0, 1, 37, 18], payload_length := 1,
      checksum := 4645 } (by decide)
